import Mathlib

/-!
Verification development for the hazard-monitoring dashboard (src/app.py).

Shallow embedding notes.
* The app is a single Streamlit script.  Its logical core is: load a CSV
  table of hazard reports, validate a submitted form payload with a Python
  truthiness check, append a row, save the CSV, and aggregate counts.
* Python floats (the latitude/longitude values produced by
  `st.number_input`) are embedded as rationals `ℚ`; every Python float is
  a dyadic rational, and the only operations the script performs on them
  are the truthiness test (`not lat` holds exactly when the float equals
  `0.0`) and exact decimal text serialization through `to_csv`/`read_csv`.
* Timestamps (`pd.Timestamp.now()`, nanosecond precision) are embedded as
  a nanosecond count `ℕ`; pandas serializes them as ISO-8601 text and
  `pd.to_datetime` parses that text back exactly at nanosecond precision,
  which we embed as an exact decimal rendering of the count.
* The persisted CSV file is embedded after lexing, as a list of records of
  cell strings (header record first); pandas's comma/quote layer is an
  exact inverse pair and is not re-modelled.  What IS modelled of
  `read_csv` beyond the lexing: its default NA-token conversion (cells
  such as "NaN", "null" or "" come back as the float NaN, not as strings)
  and its per-column dtype inference (a text column whose every non-NA
  cell looks numeric is read back as numbers).  A loaded cell is therefore
  a dynamic value (`Cell`): a string, a number, or NaN.
-/

namespace Hazard

/-! ## Data model (src/app.py form widgets and row construction) -/

/-- A submitted form payload: the five user-supplied fields of the sidebar
form (`hazard_type` selectbox, `severity` slider, `lat`/`lon` number
inputs, `reported_by` text input). -/
structure Payload where
  hazard_type : String
  severity : String
  lat : ℚ
  lon : ℚ
  reported_by : String
deriving DecidableEq, Repr

/-- One row of the hazard table, with the seven fixed columns of
`hazards.csv` in their on-disk order. -/
structure Row where
  lat : ℚ
  lon : ℚ
  hazard_type : String
  severity : String
  status : String
  reported_by : String
  timestamp : ℕ
deriving DecidableEq, Repr

/-- The in-memory dataframe `df`: a list of rows. -/
structure Store where
  rows : List Row
deriving DecidableEq, Repr

/-- The options of the `Hazard Type` selectbox (src/app.py line 89). -/
def hazardOptions : List String :=
  ["Fire", "Chemical Leak", "Equipment Failure", "Structural Risk", "Other"]

/-- The options of the `Severity` slider (src/app.py line 93). -/
def severityOptions : List String :=
  ["Low", "Medium", "High", "Critical"]

/-- The fixed column schema of the table (src/app.py line 59). -/
def schemaCols : List String :=
  ["lat", "lon", "hazard_type", "severity", "status", "reported_by", "timestamp"]

/-! ## Validation and submission (form handler, src/app.py lines 103-128) -/

/-- The submit handler's guard `not reported_by or not lat or not lon`
(src/app.py line 104).  Python truthiness: a string is falsy exactly when
it is empty, a float exactly when it equals `0.0`. -/
def validationFails (p : Payload) : Bool :=
  if p.reported_by = "" ∨ p.lat = 0 ∨ p.lon = 0 then true else false

/-- The dictionary of the `new_report` dataframe (src/app.py lines
108-116); `now` is the value of `pd.Timestamp.now()` taken during the
call. -/
def mkReport (p : Payload) (now : ℕ) : Row :=
  { lat := p.lat
    lon := p.lon
    hazard_type := p.hazard_type
    severity := p.severity
    status := "Active"
    reported_by := p.reported_by
    timestamp := now }

/-- The submit branch (src/app.py lines 103-128): on validation failure it
shows the error and leaves `df` alone; otherwise it appends the new report
(`pd.concat`).  Returns the new in-memory store and the error message, if
any. -/
def submit (s : Store) (p : Payload) (now : ℕ) : Store × Option String :=
  if validationFails p then
    (s, some "Please fill in all fields.")
  else
    ({ rows := s.rows ++ [mkReport p now] }, none)

/-! ## CSV cell serialization (models pandas `to_csv` / `read_csv` /
`pd.to_datetime`, src/app.py lines 49-68) -/

/-- One decimal digit rendered as a character. -/
def digitChar (d : ℕ) : Char :=
  if d = 0 then '0' else if d = 1 then '1' else if d = 2 then '2'
  else if d = 3 then '3' else if d = 4 then '4' else if d = 5 then '5'
  else if d = 6 then '6' else if d = 7 then '7' else if d = 8 then '8'
  else if d = 9 then '9' else '*'

/-- One character read back as a decimal digit. -/
def charDigit (c : Char) : Option ℕ :=
  if c = '0' then some 0 else if c = '1' then some 1 else if c = '2' then some 2
  else if c = '3' then some 3 else if c = '4' then some 4 else if c = '5' then some 5
  else if c = '6' then some 6 else if c = '7' then some 7 else if c = '8' then some 8
  else if c = '9' then some 9 else none

/-- Little-endian decimal digits of `n`, with explicit fuel so that the
recursion is structural (the fuel is always taken to be `n` itself). -/
def natDigitsAux : ℕ → ℕ → List ℕ
  | 0, _ => []
  | fuel + 1, n => if n = 0 then [] else n % 10 :: natDigitsAux fuel (n / 10)

/-- Little-endian decimal digits of `n`. -/
def natDigitsLE (n : ℕ) : List ℕ :=
  natDigitsAux n n

/-- Big-endian decimal digits of `n`, nonempty (`0` renders as `[0]`). -/
def renderNatDigits (n : ℕ) : List ℕ :=
  if n = 0 then [0] else (natDigitsLE n).reverse

/-- Value of a little-endian digit list. -/
def valLE : List ℕ → ℕ
  | [] => 0
  | d :: ds => d + 10 * valLE ds

/-- Value of a big-endian digit list. -/
def valBE : List ℕ → ℕ
  | [] => 0
  | d :: ds => d * 10 ^ ds.length + valBE ds

/-- The `k` low decimal digits of `n`, big-endian, zero-padded to exactly
`k` digits. -/
def padDigits : ℕ → ℕ → List ℕ
  | 0, _ => []
  | k + 1, n => n / 10 ^ k % 10 :: padDigits k n

/-- Exact decimal rendering of a rational, modelling Python's `str` on a
float (pandas `to_csv` serializes each float cell this way; Python emits
the shortest decimal that reads back to the same value, we emit a
fixed-width exact decimal — both are exact decimal renderings inverted by
the numeric read-back).  The scale exponent `q.den` is large enough
whenever the denominator divides any power of ten, which holds for every
Python float. -/
def renderQ (q : ℚ) : String :=
  ⟨(if q.num < 0 then ['-'] else []) ++
    (renderNatDigits (q.num.natAbs * (10 ^ q.den / q.den) / 10 ^ q.den)).map digitChar ++
    '.' :: (padDigits q.den (q.num.natAbs * (10 ^ q.den / q.den) % 10 ^ q.den)).map digitChar⟩

/-- Decimal rendering of a timestamp's nanosecond count (pandas writes
ISO-8601 text; the rendering is injective and inverted exactly by
`pd.to_datetime`, which we embed as the decimal digit string). -/
def renderTimestamp (n : ℕ) : String :=
  ⟨(renderNatDigits n).map digitChar⟩

/-- Split a character list at the first dot, if any. -/
def breakDot : List Char → List Char × Option (List Char)
  | [] => ([], none)
  | c :: cs =>
    if c = '.' then ([], some cs)
    else ((breakDot cs).1.cons c, (breakDot cs).2)

/-- Read back a list of digit characters. -/
def decodeDigits : List Char → Option (List ℕ)
  | [] => some []
  | c :: cs =>
    match charDigit c, decodeDigits cs with
    | some d, some ds => some (d :: ds)
    | _, _ => none

/-- Read a nonempty digit string as a natural number. -/
def parseDigits (cs : List Char) : Option ℕ :=
  match cs with
  | [] => none
  | _ :: _ => (decodeDigits cs).map valBE

/-- Read an unsigned decimal numeral, with an optional fractional part. -/
def parseUnsigned (cs : List Char) : Option ℚ :=
  match breakDot cs with
  | (ics, none) => (parseDigits ics).map (fun n => (n : ℚ))
  | (ics, some fcs) =>
    match parseDigits ics, parseDigits fcs with
    | some i, some f => some ((i : ℚ) + (f : ℚ) / 10 ^ fcs.length)
    | _, _ => none

/-- Read a decimal numeral with an optional leading minus sign, modelling
the float read-back performed by pandas `read_csv` on a numeric column. -/
def parseQ (s : String) : Option ℚ :=
  match s.data with
  | [] => none
  | c :: cs => if c = '-' then (parseUnsigned cs).map (fun x => -x) else parseUnsigned (c :: cs)

/-- Read back a timestamp (models `pd.to_datetime` on the serialized
text; fails on unreadable text, which the spec calls CorruptDataError). -/
def parseTimestamp (s : String) : Option ℕ :=
  parseDigits s.data

/-- The serialized cells of one row, in the fixed column order. -/
def renderRow (r : Row) : List String :=
  [renderQ r.lat, renderQ r.lon, r.hazard_type, r.severity, r.status,
    r.reported_by, renderTimestamp r.timestamp]

/-- A dynamically typed cell as produced by `pd.read_csv` for a text
column: a verbatim string, an inferred number, or the float NaN that
pandas substitutes for its NA tokens. -/
inductive Cell where
  | str : String → Cell
  | num : ℚ → Cell
  | nan : Cell
deriving DecidableEq, Repr

/-- One row as it comes back from `load_data`: the numeric and timestamp
columns are parsed to their structured types, while the four text columns
carry dynamic cells (pandas NA conversion and dtype inference may have
turned a stored string into NaN or a number). -/
structure LoadedRow where
  lat : ℚ
  lon : ℚ
  hazard_type : Cell
  severity : Cell
  status : Cell
  reported_by : Cell
  timestamp : ℕ
deriving DecidableEq, Repr

/-- pandas `read_csv` default NA tokens: a cell equal to any of these is
read back as the float NaN, in every column, regardless of quoting
(`to_csv` writes such strings unquoted under QUOTE_MINIMAL). -/
def naTokens : List String :=
  ["", "#N/A", "#N/A N/A", "#NA", "-1.#IND", "-1.#QNF", "-1.#INF", "-NaN",
   "-nan", "1.#IND", "1.#QNF", "1.#INF", "<NA>", "N/A", "NA", "NULL", "NaN",
   "None", "n/a", "nan", "null"]

/-- Is this cell one of pandas' default NA tokens? -/
def isNA (s : String) : Bool :=
  naTokens.contains s

/-- The cells of column `i` of the data records (`read_csv` infers dtypes
per column, so the read-back of a text cell depends on its whole
column). -/
def colCells (i : ℕ) (records : List (List String)) : List String :=
  records.map (fun r => r.getD i "")

/-- pandas dtype inference on a text column: if every non-NA cell looks
numeric, the whole column is read back as numbers. -/
def textColNumeric (cells : List String) : Bool :=
  cells.all (fun c => isNA c || (parseQ c).isSome)

/-- Read back one text cell: NA tokens become NaN; in a numeric-inferred
column the cell becomes a number; otherwise the string is verbatim. -/
def readTextCell (colNumeric : Bool) (c : String) : Cell :=
  if isNA c then Cell.nan
  else if colNumeric then
    match parseQ c with
    | some q => Cell.num q
    | none => Cell.str c
  else Cell.str c

/-- A stored string that survives the read-back verbatim: it is not an NA
token and does not look numeric (so no dtype inference can convert it). -/
def cleanText (s : String) : Prop :=
  isNA s = false ∧ parseQ s = none

/-- The dynamic-cell view of an in-memory row: this is the value the
round trip would have to reproduce (a string cell compares equal to the
loaded cell exactly when the loaded cell is the same verbatim string). -/
def Row.toLoaded (r : Row) : LoadedRow :=
  ⟨r.lat, r.lon, Cell.str r.hazard_type, Cell.str r.severity,
    Cell.str r.status, Cell.str r.reported_by, r.timestamp⟩

/-- Read back one data record of the CSV; the four Booleans say whether
dtype inference made the corresponding text column numeric.  Fails unless
the record has the seven columns with readable numeric and timestamp
cells. -/
def parseRow (fHt fSv fSt fRb : Bool) : List String → Option LoadedRow
  | [a, b, c, d, e, f, g] =>
    match parseQ a, parseQ b, parseTimestamp g with
    | some la, some lo, some ts =>
      some ⟨la, lo, readTextCell fHt c, readTextCell fSv d,
        readTextCell fSt e, readTextCell fRb f, ts⟩
    | _, _, _ => none
  | _ => none

/-- Read back every data record, failing if any record fails. -/
def parseAll (fHt fSv fSt fRb : Bool) : List (List String) → Option (List LoadedRow)
  | [] => some []
  | cells :: rest =>
    match parseRow fHt fSv fSt fRb cells, parseAll fHt fSv fSt fRb rest with
    | some r, some rs => some (r :: rs)
    | _, _ => none

/-- The persisted CSV file after lexing: one record of cell strings per
line, header first. -/
abbrev Csv := List (List String)

/-- `save_data` (src/app.py lines 65-68): `df.to_csv` writes the header
record followed by one record per row.  (The cache-clearing side effect
has no observable state in this embedding.) -/
def save_data (rows : List Row) : Csv :=
  schemaCols :: rows.map renderRow

/-- The result of `load_data`: the column header, the parsed rows, and
the error message displayed to the user via `st.error`, if any. -/
structure LoadResult where
  columns : List String
  rows : List LoadedRow
  errorMsg : Option String
deriving DecidableEq, Repr

/-- The message shown by the missing-file branch of `load_data`
(src/app.py line 58; the quotes around the file name are elided). -/
def missingFileMsg : String :=
  "Error: hazards.csv not found. A new one will be created when you add a report."

/-- `load_data` (src/app.py lines 49-59): reads the CSV with pandas
defaults (NA-token conversion and per-column dtype inference on the text
columns) and converts the timestamp column (`pd.to_datetime`); a missing
file (`none`) is caught and turned into an empty table with the fixed
schema, after displaying an error banner.  An unreadable file yields
`none` (the CorruptDataError of the spec, a propagated failure). -/
def load_data : Option Csv → Option LoadResult
  | none => some ⟨schemaCols, [], some missingFileMsg⟩
  | some [] => none
  | some (hdr :: dataRows) =>
    if hdr = schemaCols then
      match parseAll (textColNumeric (colCells 2 dataRows))
          (textColNumeric (colCells 3 dataRows))
          (textColNumeric (colCells 4 dataRows))
          (textColNumeric (colCells 5 dataRows)) dataRows with
      | some rs => some ⟨hdr, rs, none⟩
      | none => none
    else none

/-- The effect of one submit on the persisted file: `save_data` is called
only on the success branch (src/app.py line 122), so a rejected submit
leaves the file untouched. -/
def submitFileEffect (file : Option Csv) (s : Store) (p : Payload) (now : ℕ) :
    Option Csv :=
  match (submit s p now).2 with
  | some _ => file
  | none => some (save_data (submit s p now).1.rows)

/-- A rational with an exact finite decimal expansion (every Python float
satisfies this: its reduced denominator is a power of two, and
`2 ^ a ∣ d → a < d`, so `d ∣ 10 ^ d`). -/
def renderable (q : ℚ) : Prop :=
  q.den ∣ 10 ^ q.den

/-! ## Aggregation (src/app.py lines 208-220) -/

/-- First-occurrence deduplication (the distinct values of a column, in
order of first appearance), with an accumulator of already-seen values so
that the recursion is structural. -/
def dedupFirstAux (seen : List String) : List String → List String
  | [] => []
  | x :: xs =>
    if x ∈ seen then dedupFirstAux seen xs
    else x :: dedupFirstAux (x :: seen) xs

/-- Stable descending insertion by count: the entry is placed before the
first strictly smaller count, so equal counts keep their existing order. -/
def insertDesc (p : String × ℕ) : List (String × ℕ) → List (String × ℕ)
  | [] => [p]
  | q :: qs => if q.2 < p.2 then p :: q :: qs else q :: insertDesc p qs

/-- Stable insertion sort by descending count. -/
def sortDesc : List (String × ℕ) → List (String × ℕ)
  | [] => []
  | p :: ps => insertDesc p (sortDesc ps)

/-- pandas `Series.value_counts()` with its defaults (`sort=True`,
`ascending=False`): the distinct values with their multiplicities, sorted
by descending count, ties in order of first appearance. -/
def value_counts (l : List String) : List (String × ℕ) :=
  sortDesc ((dedupFirstAux [] l).map (fun v => (v, l.count v)))

/-- The `hazard_type` column of the table (`df['hazard_type']`). -/
def hazardTypeColumn (rows : List Row) : List String :=
  rows.map (fun r => r.hazard_type)

/-- The `severity` column of the table (`df['severity']`). -/
def severityColumn (rows : List Row) : List String :=
  rows.map (fun r => r.severity)

/-- Modelled from the spec: the hazard-type enumeration as the spec
spells it (`enum{Fire, ChemicalLeak, EquipmentFailure, StructuralRisk,
Other}`), for comparison with the program's option strings. -/
def specHazardEnum : List String :=
  ["Fire", "ChemicalLeak", "EquipmentFailure", "StructuralRisk", "Other"]

/-- Modelled from the spec: a count mapping iterated in the enumerated
set order (spec section 4.3), listing each enumerated value that occurs,
in enumeration order, with its count. -/
def specOrderCounts (order : List String) (vals : List String) : List (String × ℕ) :=
  (order.filter (fun v => decide (0 < vals.count v))).map (fun v => (v, vals.count v))

/-! ## Row styling (src/app.py lines 71-80) -/

/-- `style_severity`: one style string per cell of the row (`len(row)` is
the seven columns when applied with `axis=1`). -/
def style_severity (row : Row) : List String :=
  if row.severity = "Critical" then
    List.replicate 7 "background-color: #ffadad"
  else if row.severity = "High" then
    List.replicate 7 "background-color: #ffd6a5"
  else if row.severity = "Medium" then
    List.replicate 7 "background-color: #fdffb6"
  else
    List.replicate 7 ""

/-! ## Concrete inputs used by witnesses and counterexamples -/

/-- A payload with an equatorial latitude of exactly 0 and every other
field valid. -/
def pZeroLat : Payload :=
  { hazard_type := "Fire", severity := "Medium", lat := 0, lon := 10,
    reported_by := "Worker A" }

/-- A payload whose coordinates are far outside the geographic ranges. -/
def pOutOfRange : Payload :=
  { hazard_type := "Fire", severity := "High", lat := 200, lon := 300,
    reported_by := "Worker A" }

/-- A payload whose reporter name is a single space (whitespace-only). -/
def pWhitespace : Payload :=
  { hazard_type := "Fire", severity := "Low", lat := 19, lon := 72,
    reported_by := " " }

/-- A payload with an empty reporter name. -/
def pNoReporter : Payload :=
  { hazard_type := "Fire", severity := "Medium", lat := 19, lon := 72,
    reported_by := "" }

/-- A fully valid payload. -/
def pOk : Payload :=
  { hazard_type := "Fire", severity := "Critical", lat := 19, lon := 72,
    reported_by := "Worker A" }

/-- A valid payload using the spaced selectbox option. -/
def pChem : Payload :=
  { hazard_type := "Chemical Leak", severity := "High", lat := 19, lon := 72,
    reported_by := "Worker A" }

/-- A concrete one-row table used to exercise the save/load round trip. -/
def tRound : List Row :=
  [{ lat := 19, lon := -72, hazard_type := "Chemical Leak", severity := "Critical",
     status := "Active", reported_by := "Worker A", timestamp := 1700000000 }]

/-- A valid payload whose reporter typed the literal text NaN into the
free-text reporter field. -/
def pNan : Payload :=
  { hazard_type := "Fire", severity := "Critical", lat := 19, lon := -72,
    reported_by := "NaN" }

/-- The one-row table persisted by submitting `pNan`: a reachable store
state whose reporter cell is one of pandas' NA tokens. -/
def tNan : List Row :=
  [mkReport pNan 1700000000]

/-- A three-row table whose hazard types occur out of enumeration order. -/
def tOrderRows : List Row :=
  [mkReport { hazard_type := "Other", severity := "Low", lat := 19, lon := 72, reported_by := "A" } 1,
   mkReport { hazard_type := "Other", severity := "Low", lat := 19, lon := 72, reported_by := "B" } 2,
   mkReport { hazard_type := "Fire", severity := "High", lat := 19, lon := 72, reported_by := "C" } 3]

instance (q : ℚ) : Decidable (renderable q) :=
  inferInstanceAs (Decidable (q.den ∣ 10 ^ q.den))

instance (s : String) : Decidable (cleanText s) :=
  inferInstanceAs (Decidable (isNA s = false ∧ parseQ s = none))

/-! ## Serialization lemmas: digit strings -/

theorem charDigit_digitChar {d : ℕ} (h : d < 10) : charDigit (digitChar d) = some d := by
  interval_cases d <;> rfl

theorem digitChar_ne_dot {d : ℕ} (h : d < 10) : digitChar d ≠ '.' := by
  interval_cases d <;> decide

theorem digitChar_ne_dash {d : ℕ} (h : d < 10) : digitChar d ≠ '-' := by
  interval_cases d <;> decide

theorem valLE_natDigitsAux : ∀ (fuel n : ℕ), n ≤ fuel → valLE (natDigitsAux fuel n) = n := by
  intro fuel
  induction fuel with
  | zero => intro n h; interval_cases n; rfl
  | succ fuel ih =>
    intro n h
    by_cases h0 : n = 0
    · subst h0; simp [natDigitsAux, valLE]
    · have hlt : n / 10 < n := Nat.div_lt_self (Nat.pos_of_ne_zero h0) (by norm_num)
      simp only [natDigitsAux, if_neg h0, valLE]
      rw [ih (n / 10) (by omega)]
      exact Nat.mod_add_div n 10

theorem natDigitsAux_lt : ∀ (fuel n : ℕ), ∀ d ∈ natDigitsAux fuel n, d < 10 := by
  intro fuel
  induction fuel with
  | zero => intro n d hd; simp [natDigitsAux] at hd
  | succ fuel ih =>
    intro n d hd
    by_cases h0 : n = 0
    · simp [natDigitsAux, h0] at hd
    · simp only [natDigitsAux, if_neg h0, List.mem_cons] at hd
      rcases hd with h | h
      · subst h; exact Nat.mod_lt _ (by norm_num)
      · exact ih _ _ h

theorem natDigitsLE_ne_nil {n : ℕ} (h : n ≠ 0) : natDigitsLE n ≠ [] := by
  unfold natDigitsLE
  cases n with
  | zero => exact absurd rfl h
  | succ m => simp [natDigitsAux]

theorem valBE_append (L : List ℕ) (d : ℕ) : valBE (L ++ [d]) = 10 * valBE L + d := by
  induction L with
  | nil => simp [valBE]
  | cons x L ih =>
    rw [List.cons_append, valBE, valBE, ih, List.length_append]
    simp only [List.length_cons, List.length_nil, Nat.zero_add]
    rw [pow_succ]
    ring

theorem valBE_reverse (L : List ℕ) : valBE L.reverse = valLE L := by
  induction L with
  | nil => rfl
  | cons d L ih =>
    rw [List.reverse_cons, valBE_append, ih, valLE]
    omega

theorem valBE_renderNatDigits (n : ℕ) : valBE (renderNatDigits n) = n := by
  unfold renderNatDigits
  by_cases h : n = 0
  · simp [h, valBE]
  · rw [if_neg h, valBE_reverse]
    exact valLE_natDigitsAux n n le_rfl

theorem renderNatDigits_ne_nil (n : ℕ) : renderNatDigits n ≠ [] := by
  unfold renderNatDigits
  by_cases h : n = 0
  · simp [h]
  · rw [if_neg h]
    simp [natDigitsLE_ne_nil h]

theorem renderNatDigits_lt (n : ℕ) : ∀ d ∈ renderNatDigits n, d < 10 := by
  unfold renderNatDigits
  by_cases h : n = 0
  · simp [h]
  · rw [if_neg h]
    intro d hd
    rw [List.mem_reverse] at hd
    exact natDigitsAux_lt n n d hd

theorem padDigits_length (k n : ℕ) : (padDigits k n).length = k := by
  induction k with
  | zero => rfl
  | succ k ih => simp [padDigits, ih]

theorem padDigits_lt (k n : ℕ) : ∀ d ∈ padDigits k n, d < 10 := by
  induction k with
  | zero => simp [padDigits]
  | succ k ih =>
    intro d hd
    simp only [padDigits, List.mem_cons] at hd
    rcases hd with h | h
    · subst h; exact Nat.mod_lt _ (by norm_num)
    · exact ih d h

theorem valBE_padDigits (k n : ℕ) : valBE (padDigits k n) = n % 10 ^ k := by
  induction k with
  | zero => simp [padDigits, valBE, Nat.mod_one]
  | succ k ih =>
    simp only [padDigits, valBE, padDigits_length, ih]
    rw [pow_succ, Nat.mod_mul]
    ring

theorem decodeDigits_map (L : List ℕ) (h : ∀ d ∈ L, d < 10) :
    decodeDigits (L.map digitChar) = some L := by
  induction L with
  | nil => rfl
  | cons d L ih =>
    simp only [List.map_cons, decodeDigits]
    rw [charDigit_digitChar (h d (by simp)), ih (fun x hx => h x (by simp [hx]))]

theorem parseDigits_map (L : List ℕ) (hne : L ≠ []) (h : ∀ d ∈ L, d < 10) :
    parseDigits (L.map digitChar) = some (valBE L) := by
  obtain ⟨d, L0, rfl⟩ := List.exists_cons_of_ne_nil hne
  have hdec := decodeDigits_map (d :: L0) h
  simp only [List.map_cons] at hdec ⊢
  simp [parseDigits, hdec]

theorem breakDot_append (A B : List Char) (h : ∀ c ∈ A, c ≠ '.') :
    breakDot (A ++ '.' :: B) = (A, some B) := by
  induction A with
  | nil => simp [breakDot]
  | cons c A ih =>
    simp only [List.cons_append, breakDot]
    rw [if_neg (h c (by simp)), List.append_eq, ih (fun x hx => h x (by simp [hx]))]

theorem parseUnsigned_render (I F : List ℕ) (hIne : I ≠ []) (hFne : F ≠ [])
    (hI : ∀ d ∈ I, d < 10) (hF : ∀ d ∈ F, d < 10) :
    parseUnsigned (I.map digitChar ++ '.' :: F.map digitChar) =
      some ((valBE I : ℚ) + (valBE F : ℚ) / 10 ^ F.length) := by
  have hdot : ∀ c ∈ I.map digitChar, c ≠ '.' := by
    intro c hc
    obtain ⟨d, hd, rfl⟩ := List.mem_map.mp hc
    exact digitChar_ne_dot (hI d hd)
  unfold parseUnsigned
  rw [breakDot_append _ _ hdot]
  simp only [parseDigits_map I hIne hI, parseDigits_map F hFne hF, List.length_map]

theorem castDiv_key (m k : ℕ) :
    ((m / 10 ^ k : ℕ) : ℚ) + ((m % 10 ^ k : ℕ) : ℚ) / 10 ^ k = (m : ℚ) / 10 ^ k := by
  have hp : ((10 : ℚ)) ^ k ≠ 0 := by positivity
  have hsplit : m / 10 ^ k * 10 ^ k + m % 10 ^ k = m := by
    have hdm := Nat.div_add_mod m (10 ^ k)
    rw [Nat.mul_comm (10 ^ k) (m / 10 ^ k)] at hdm
    exact hdm
  field_simp
  exact_mod_cast congrArg (fun x : ℕ => (x : ℚ)) hsplit

theorem parseQ_renderQ (q : ℚ) (h : renderable q) : parseQ (renderQ q) = some q := by
  have hden : (q.den : ℚ) ≠ 0 := Nat.cast_ne_zero.mpr q.den_nz
  have hpow : ((10 : ℚ)) ^ q.den ≠ 0 := by positivity
  have hdvd : q.den ∣ 10 ^ q.den := h
  set M : ℕ := q.num.natAbs * (10 ^ q.den / q.den) with hM
  set I : List ℕ := renderNatDigits (M / 10 ^ q.den) with hI
  set F : List ℕ := padDigits q.den (M % 10 ^ q.den) with hF
  have hIne : I ≠ [] := renderNatDigits_ne_nil _
  have hFne : F ≠ [] := by
    rw [hF]
    rcases Nat.exists_eq_succ_of_ne_zero q.den_nz with ⟨k0, hk0⟩
    rw [hk0]
    simp [padDigits]
  have hI10 : ∀ d ∈ I, d < 10 := renderNatDigits_lt _
  have hF10 : ∀ d ∈ F, d < 10 := padDigits_lt _ _
  have hparse := parseUnsigned_render I F hIne hFne hI10 hF10
  have hlen : F.length = q.den := by rw [hF]; exact padDigits_length _ _
  have hval : (valBE I : ℚ) + (valBE F : ℚ) / 10 ^ F.length = (q.num.natAbs : ℚ) / q.den := by
    rw [hlen, hI, hF, valBE_renderNatDigits, valBE_padDigits,
      Nat.mod_eq_of_lt (Nat.mod_lt _ (by positivity)), castDiv_key]
    rw [hM]
    push_cast [Nat.cast_div hdvd hden]
    field_simp
    ring
  have hdata : (renderQ q).data =
      (if q.num < 0 then ['-'] else []) ++ I.map digitChar ++ '.' :: F.map digitChar := by
    rw [hI, hF, hM]
    rfl
  rcases lt_or_ge q.num 0 with hneg | hpos
  · have habs : (q.num.natAbs : ℚ) = -(q.num : ℚ) := by
      rw [Int.cast_natAbs]
      simp [abs_of_neg hneg]
    have hdata1 : (renderQ q).data = '-' :: (I.map digitChar ++ '.' :: F.map digitChar) := by
      rw [hdata, if_pos hneg]
      rfl
    unfold parseQ
    rw [hdata1]
    dsimp only
    rw [if_pos rfl, hparse, hval, habs]
    simp [neg_div, neg_neg, Rat.num_div_den]
  · obtain ⟨d0, I0, hI0⟩ := List.exists_cons_of_ne_nil hIne
    have hd0 : d0 < 10 := hI10 d0 (by rw [hI0]; simp)
    have habs : (q.num.natAbs : ℚ) = (q.num : ℚ) := by
      rw [Int.cast_natAbs, abs_of_nonneg hpos]
    have hdata2 : (renderQ q).data =
        digitChar d0 :: (I0.map digitChar ++ '.' :: F.map digitChar) := by
      rw [hdata, if_neg (not_lt.mpr hpos), hI0]
      rfl
    unfold parseQ
    rw [hdata2]
    dsimp only
    rw [if_neg (digitChar_ne_dash hd0)]
    have hback : digitChar d0 :: (I0.map digitChar ++ '.' :: F.map digitChar) =
        I.map digitChar ++ '.' :: F.map digitChar := by
      rw [hI0]
      rfl
    rw [hback, hparse, hval, habs, Rat.num_div_den]

theorem parseTimestamp_render (n : ℕ) : parseTimestamp (renderTimestamp n) = some n := by
  show parseDigits ((renderNatDigits n).map digitChar) = some n
  rw [parseDigits_map _ (renderNatDigits_ne_nil n) (renderNatDigits_lt n),
    valBE_renderNatDigits]

theorem readTextCell_clean {s : String} (f : Bool) (h : cleanText s) :
    readTextCell f s = Cell.str s := by
  obtain ⟨h1, h2⟩ := h
  cases f <;> simp [readTextCell, h1, h2]

theorem parseRow_renderRow (f1 f2 f3 f4 : Bool) (r : Row)
    (h1 : renderable r.lat) (h2 : renderable r.lon) :
    parseRow f1 f2 f3 f4 (renderRow r) =
      some ⟨r.lat, r.lon, readTextCell f1 r.hazard_type, readTextCell f2 r.severity,
        readTextCell f3 r.status, readTextCell f4 r.reported_by, r.timestamp⟩ := by
  obtain ⟨la, lo, ht, sv, sc, rb, ts⟩ := r
  simp only [renderRow, parseRow]
  rw [parseQ_renderQ _ h1, parseQ_renderQ _ h2, parseTimestamp_render]

theorem parseAll_render (f1 f2 f3 f4 : Bool) (T : List Row)
    (h : ∀ r ∈ T, renderable r.lat ∧ renderable r.lon) :
    parseAll f1 f2 f3 f4 (T.map renderRow) =
      some (T.map (fun r => ⟨r.lat, r.lon, readTextCell f1 r.hazard_type,
        readTextCell f2 r.severity, readTextCell f3 r.status,
        readTextCell f4 r.reported_by, r.timestamp⟩)) := by
  induction T with
  | nil => rfl
  | cons r T ih =>
    simp only [List.map_cons, parseAll]
    rw [parseRow_renderRow f1 f2 f3 f4 r (h r (by simp)).1 (h r (by simp)).2,
      ih (fun x hx => h x (by simp [hx]))]

theorem load_save_eq (T : List Row)
    (h : ∀ r ∈ T, renderable r.lat ∧ renderable r.lon) :
    load_data (some (save_data T)) =
      some ⟨schemaCols,
        T.map (fun r => ⟨r.lat, r.lon,
          readTextCell (textColNumeric (colCells 2 (T.map renderRow))) r.hazard_type,
          readTextCell (textColNumeric (colCells 3 (T.map renderRow))) r.severity,
          readTextCell (textColNumeric (colCells 4 (T.map renderRow))) r.status,
          readTextCell (textColNumeric (colCells 5 (T.map renderRow))) r.reported_by,
          r.timestamp⟩), none⟩ := by
  unfold save_data load_data
  dsimp only
  rw [if_pos rfl, parseAll_render _ _ _ _ T h]

theorem mem_insertDesc {p x : String × ℕ} : ∀ {l : List (String × ℕ)},
    x ∈ insertDesc p l → x = p ∨ x ∈ l := by
  intro l
  induction l with
  | nil =>
    intro hx
    simp [insertDesc] at hx
    simp [hx]
  | cons q qs ih =>
    intro hx
    by_cases hc : q.2 < p.2
    · simp only [insertDesc, if_pos hc] at hx
      rcases List.mem_cons.mp hx with h | h
      · exact Or.inl h
      · exact Or.inr h
    · simp only [insertDesc, if_neg hc] at hx
      rcases List.mem_cons.mp hx with h | h
      · exact Or.inr (by simp [h])
      · rcases ih h with h2 | h2
        · exact Or.inl h2
        · exact Or.inr (by simp [h2])

theorem pairwise_insertDesc {p : String × ℕ} {l : List (String × ℕ)}
    (h : l.Pairwise (fun a b => b.2 ≤ a.2)) :
    (insertDesc p l).Pairwise (fun a b => b.2 ≤ a.2) := by
  induction l with
  | nil => simp [insertDesc]
  | cons q qs ih =>
    rw [List.pairwise_cons] at h
    by_cases hc : q.2 < p.2
    · simp only [insertDesc, if_pos hc]
      rw [List.pairwise_cons]
      refine ⟨?_, List.pairwise_cons.mpr h⟩
      intro x hx
      rcases List.mem_cons.mp hx with rfl | hx
      · omega
      · exact le_trans (h.1 x hx) (le_of_lt hc)
    · simp only [insertDesc, if_neg hc]
      rw [List.pairwise_cons]
      refine ⟨?_, ih h.2⟩
      intro x hx
      rcases mem_insertDesc hx with rfl | hx
      · omega
      · exact h.1 x hx

theorem pairwise_sortDesc (l : List (String × ℕ)) :
    (sortDesc l).Pairwise (fun a b => b.2 ≤ a.2) := by
  induction l with
  | nil => simp [sortDesc]
  | cons p ps ih => exact pairwise_insertDesc ih

/-- C9 (amended): the per-type and per-severity mappings the dashboard
charts are built from are `value_counts` outputs: they iterate in
descending-count order (ties in first-appearance order), not in the
enumerated set order. -/
theorem value_counts_sorted_desc (rows : List Row) :
    ((value_counts (hazardTypeColumn rows)).Pairwise (fun a b => b.2 ≤ a.2)) ∧
    ((value_counts (severityColumn rows)).Pairwise (fun a b => b.2 ≤ a.2)) :=
  ⟨pairwise_sortDesc _, pairwise_sortDesc _⟩

/-- C9 counterexample: on a table with two Other rows and one Fire row,
the chart mapping starts with Other (largest count), whereas the
enumerated set order would put Fire first: the mapping is not iterated in
enumeration order. -/
theorem value_counts_order_counterexample :
    value_counts (hazardTypeColumn tOrderRows) = [("Other", 2), ("Fire", 1)] ∧
    specOrderCounts specHazardEnum (hazardTypeColumn tOrderRows) =
      [("Fire", 1), ("Other", 2)] ∧
    value_counts (hazardTypeColumn tOrderRows) ≠
      specOrderCounts specHazardEnum (hazardTypeColumn tOrderRows) := by
  decide

/-- C1: the code rejects a payload whose latitude is exactly 0 even though
all fields are present and the coordinate is geographically valid — the
truthiness check treats the coordinate 0.0 as missing, contradicting the
spec, which the spec itself flags as a probable bug.  Nothing is appended
or persisted. -/
theorem zero_coordinate_rejected :
    pZeroLat.lat = 0 ∧ (-90 : ℚ) ≤ pZeroLat.lat ∧ pZeroLat.lat ≤ 90 ∧
    pZeroLat.reported_by ≠ "" ∧ pZeroLat.hazard_type ∈ hazardOptions ∧
    validationFails pZeroLat = true ∧
    submit ⟨[]⟩ pZeroLat 5 = (⟨[]⟩, some "Please fill in all fields.") ∧
    submitFileEffect (some (save_data [])) ⟨[]⟩ pZeroLat 5 = some (save_data []) := by
  decide

/-- C2 counterexample: a payload whose latitude (200) and longitude (300)
are far outside the geographic ranges passes validation and is appended as
a persisted record — validation does not reject out-of-range
coordinates. -/
theorem validate_range_counterexample :
    ¬(pOutOfRange.lat ≤ 90) ∧ ¬(pOutOfRange.lon ≤ 180) ∧
    validationFails pOutOfRange = false ∧
    (submit ⟨[]⟩ pOutOfRange 5).1.rows = [mkReport pOutOfRange 5] ∧
    (submit ⟨[]⟩ pOutOfRange 5).2 = none := by
  decide

/-- C2 (amended): the form handler performs no range check at all — every
payload with a non-empty reporter and nonzero coordinates is accepted and
appended, regardless of whether the coordinates lie inside [-90, 90] and
[-180, 180]. -/
theorem submit_no_range_check (s : Store) (p : Payload) (now : ℕ)
    (hr : p.reported_by ≠ "") (hlat : p.lat ≠ 0) (hlon : p.lon ≠ 0) :
    submit s p now = ({ rows := s.rows ++ [mkReport p now] }, none) := by
  simp [submit, validationFails, hr, hlat, hlon]

theorem submit_no_range_check_witness :
    (pOutOfRange.reported_by ≠ "" ∧ pOutOfRange.lat ≠ 0 ∧ pOutOfRange.lon ≠ 0) ∧
    submit ⟨[]⟩ pOutOfRange 5 = ({ rows := [] ++ [mkReport pOutOfRange 5] }, none) :=
  ⟨⟨by decide, by decide, by decide⟩,
    submit_no_range_check ⟨[]⟩ pOutOfRange 5 (by decide) (by decide) (by decide)⟩

/-- C3 counterexample: a payload whose reporter field is a single space
(whitespace-only) passes validation and is persisted with that reporter
value — the code does not trim whitespace before the emptiness check. -/
theorem validate_whitespace_counterexample :
    pWhitespace.reported_by = " " ∧
    validationFails pWhitespace = false ∧
    (submit ⟨[]⟩ pWhitespace 5).1.rows = [mkReport pWhitespace 5] ∧
    (mkReport pWhitespace 5).reported_by = " " := by
  decide

/-- C3 (amended): with nonzero coordinates, validation rejects exactly
when `reported_by` is the empty string; no whitespace trimming is
performed, so whitespace-only reporters are accepted. -/
theorem validate_reportedBy_empty_only (p : Payload)
    (hlat : p.lat ≠ 0) (hlon : p.lon ≠ 0) :
    validationFails p = true ↔ p.reported_by = "" := by
  by_cases h : p.reported_by = "" <;> simp [validationFails, hlat, hlon, h]

theorem validate_reportedBy_empty_only_witness :
    (pNoReporter.lat ≠ 0 ∧ pNoReporter.lon ≠ 0) ∧
    (validationFails pNoReporter = true ↔ pNoReporter.reported_by = "") :=
  ⟨⟨by decide, by decide⟩,
    validate_reportedBy_empty_only pNoReporter (by decide) (by decide)⟩

/-- C4: a submission that fails validation causes no write: the in-memory
table is returned unchanged with the error message, and the persisted file
is exactly what it was before the submit. -/
theorem submit_invalid_no_write (file : Option Csv) (s : Store) (p : Payload) (now : ℕ)
    (h : validationFails p = true) :
    submit s p now = (s, some "Please fill in all fields.") ∧
    submitFileEffect file s p now = file := by
  constructor
  · simp [submit, h]
  · simp [submitFileEffect, submit, h]

theorem submit_invalid_no_write_witness :
    validationFails pNoReporter = true ∧
    (submit ⟨[]⟩ pNoReporter 5 = (⟨[]⟩, some "Please fill in all fields.") ∧
      submitFileEffect (some (save_data [])) ⟨[]⟩ pNoReporter 5 = some (save_data [])) :=
  ⟨by decide, submit_invalid_no_write (some (save_data [])) ⟨[]⟩ pNoReporter 5 (by decide)⟩

/-- C6 counterexample: choosing the second selectbox option persists the
string with a space, Chemical Leak, which is not among the five spellings
the claim enumerates (Fire, ChemicalLeak, EquipmentFailure,
StructuralRisk, Other). -/
theorem hazard_type_spelling_counterexample :
    pChem.hazard_type ∈ hazardOptions ∧
    validationFails pChem = false ∧
    (submit ⟨[]⟩ pChem 5).1.rows.getLast? = some (mkReport pChem 5) ∧
    (mkReport pChem 5).hazard_type = "Chemical Leak" ∧
    "Chemical Leak" ∉ specHazardEnum := by
  decide

/-- C6 (amended): every hazard_type persisted by a submission is exactly
one of the five selectbox options — Fire, Chemical Leak, Equipment
Failure, Structural Risk, Other — matched case-sensitively. -/
theorem submit_hazard_type_in_options (s : Store) (p : Payload) (now : ℕ)
    (hw : p.hazard_type ∈ hazardOptions) (hv : validationFails p = false) :
    ∃ r : Row, (submit s p now).1.rows.getLast? = some r ∧
      r.hazard_type ∈ hazardOptions := by
  refine ⟨mkReport p now, ?_, hw⟩
  simp [submit, hv, List.getLast?_concat]

theorem submit_hazard_type_in_options_witness :
    (pChem.hazard_type ∈ hazardOptions ∧ validationFails pChem = false) ∧
    (∃ r : Row, (submit ⟨[]⟩ pChem 5).1.rows.getLast? = some r ∧
      r.hazard_type ∈ hazardOptions) :=
  ⟨⟨by decide, by decide⟩,
    submit_hazard_type_in_options ⟨[]⟩ pChem 5 (by decide) (by decide)⟩

/-- C7: a valid submission appends a record populated in all seven fields,
with status Active and the timestamp taken by `pd.Timestamp.now()` during
the call (hence not earlier than the call's start). -/
theorem submit_success_record (s : Store) (p : Payload) (now : ℕ)
    (h : validationFails p = false) :
    ∃ r : Row, (submit s p now).1.rows.getLast? = some r ∧
      r.status = "Active" ∧ now ≤ r.timestamp ∧ r.timestamp = now ∧
      r.lat = p.lat ∧ r.lon = p.lon ∧ r.hazard_type = p.hazard_type ∧
      r.severity = p.severity ∧ r.reported_by = p.reported_by := by
  refine ⟨mkReport p now, ?_, rfl, le_rfl, rfl, rfl, rfl, rfl, rfl, rfl⟩
  simp [submit, h, List.getLast?_concat]

theorem submit_success_record_witness :
    validationFails pOk = false ∧
    (∃ r : Row, (submit ⟨[]⟩ pOk 5).1.rows.getLast? = some r ∧
      r.status = "Active" ∧ 5 ≤ r.timestamp ∧ r.timestamp = 5 ∧
      r.lat = pOk.lat ∧ r.lon = pOk.lon ∧ r.hazard_type = pOk.hazard_type ∧
      r.severity = pOk.severity ∧ r.reported_by = pOk.reported_by) :=
  ⟨by decide, submit_success_record ⟨[]⟩ pOk 5 (by decide)⟩

/-- C8 counterexample: the missing-file branch of `load_data` does surface
a user-facing error — it calls `st.error` with a message before returning
the empty table, so the cold start is not silent to the user. -/
theorem load_missing_error_counterexample :
    (load_data none).map (fun r => r.errorMsg) = some (some missingFileMsg) ∧
    (some missingFileMsg : Option String) ≠ none := by
  constructor
  · rfl
  · simp

/-- C8 (amended): when the persisted file is absent, `load_data` returns
an empty table with the fixed seven-column schema and does not propagate a
failure (the app keeps running), but it does display an error banner to
the user. -/
theorem load_missing_empty_schema :
    load_data none = some ⟨schemaCols, [], some missingFileMsg⟩ ∧
    schemaCols.length = 7 := by
  constructor
  · rfl
  · rfl

/-- C10: `style_severity` is a pure function of the row's severity alone:
exactly one style entry per cell of the seven-cell row, light red for
Critical, light orange for High, light yellow for Medium, and the empty
default for every other severity value. -/
theorem style_severity_spec :
    (∀ r : Row, (style_severity r).length = 7) ∧
    (∀ a b : Row, a.severity = b.severity → style_severity a = style_severity b) ∧
    (∀ r : Row, r.severity = "Critical" →
      style_severity r = List.replicate 7 "background-color: #ffadad") ∧
    (∀ r : Row, r.severity = "High" →
      style_severity r = List.replicate 7 "background-color: #ffd6a5") ∧
    (∀ r : Row, r.severity = "Medium" →
      style_severity r = List.replicate 7 "background-color: #fdffb6") ∧
    (∀ r : Row, r.severity ≠ "Critical" → r.severity ≠ "High" →
      r.severity ≠ "Medium" → style_severity r = List.replicate 7 "") := by
  refine ⟨?_, ?_, ?_, ?_, ?_, ?_⟩
  · intro r
    unfold style_severity
    split_ifs <;> simp
  · intro a b hab
    unfold style_severity
    rw [hab]
  · intro r h
    simp [style_severity, h]
  · intro r h
    simp [style_severity, h]
  · intro r h
    simp [style_severity, h]
  · intro r h1 h2 h3
    simp [style_severity, h1, h2, h3]

theorem style_severity_spec_witness :
    style_severity (mkReport pOk 5) = List.replicate 7 "background-color: #ffadad" ∧
    style_severity (mkReport pWhitespace 5) = List.replicate 7 "" :=
  ⟨style_severity_spec.2.2.1 (mkReport pOk 5) rfl,
    style_severity_spec.2.2.2.2.2 (mkReport pWhitespace 5)
      (by decide) (by decide) (by decide)⟩

end Hazard
